import Mathlib

/-!
# Verification of the STDF polling / report pipeline (`src/pollingv4.py`)

This file gives a shallow embedding of the discovery-classification-dispatch
engine of the repository's `pollingv4.py` and proves properties of it.

Modelling conventions:
* Windows paths are plain strings; the separator is the backslash, as in the
  source (the watch root is a UNC path).  `pjoin`/`pdirname` model
  `os.path.join`/`os.path.dirname` for such paths.
* String primitives (`upper`, `lower`, `endswith`, `in`, `split`) are
  re-implemented over `List Char` so that every definition evaluates by
  structural recursion.
* A leaf directory's observable filesystem state (the results of the
  `os.listdir` / `os.path.isfile` / `os.path.isdir` / `os.walk` calls the
  polling code performs) is captured in a `LeafDir` record.
* The SVN catalog query is an external collaborator: its raw `svn cat` output
  is `some content`, and a `CalledProcessError` is `none`.
-/

namespace Spec2Proof

/-! ## String primitives (ASCII, structurally recursive) -/

/-- `s.upper()` (ASCII). -/
def strUpper (s : String) : String := ⟨s.data.map Char.toUpper⟩

/-- `s.lower()` (ASCII). -/
def strLower (s : String) : String := ⟨s.data.map Char.toLower⟩

/-- Does `hay` start with `needle`? -/
def startsWithList : List Char → List Char → Bool
  | [], _ => true
  | _ :: _, [] => false
  | a :: as, b :: bs => a == b && startsWithList as bs

/-- Does `hay` contain `needle` as a contiguous sublist? -/
def containsSublist (needle : List Char) : List Char → Bool
  | [] => needle.isEmpty
  | b :: bs => startsWithList needle (b :: bs) || containsSublist needle bs

/-- Python `s.endswith(suffix)`. -/
def strEndsWith (s suffix : String) : Bool :=
  startsWithList suffix.data.reverse s.data.reverse

/-- Python `needle in hay` (substring containment). -/
def strContains (hay needle : String) : Bool := containsSublist needle.data hay.data

/-- Python `s.replace('_', ' ')` (single-character replacement). -/
def replUnderscore (s : String) : String :=
  ⟨s.data.map (fun c => if c = '_' then ' ' else c)⟩

/-- Auxiliary character-level splitter for `splitBS`. -/
def splitBSAux : List Char → List Char → List String
  | [], acc => [⟨acc.reverse⟩]
  | c :: cs, acc =>
    if c = '\\' then (⟨acc.reverse⟩ : String) :: splitBSAux cs []
    else splitBSAux cs (c :: acc)

/-- Python `path.split("\\")`: split on every backslash, keeping empty parts. -/
def splitBS (s : String) : List String := splitBSAux s.data []

/-- Join path components with a backslash. -/
def joinBS : List String → String
  | [] => ""
  | [x] => x
  | x :: xs => x ++ "\\" ++ joinBS xs

/-- `os.path.join(a, b)` for backslash paths (as used by the source: `b` is
always a relative name). -/
def pjoin (a b : String) : String :=
  if a = "" then b
  else if strEndsWith a "\\" then a ++ b
  else a ++ "\\" ++ b

/-- `os.path.dirname(path)` for backslash paths: everything before the last
separator. -/
def pdirname (path : String) : String := joinBS (splitBS path).dropLast

/-- `os.path.basename(path)` for backslash paths: the last component. -/
def pbasename (path : String) : String := (splitBS path).getLastD ""

/-! ## Process types (`ProcessType` enum) -/

/-- The `ProcessType` enumeration of the source. -/
inductive ProcessType where
  | STDF2CSV
  | CSV2REPORT
  | CONDITION2REPORT
deriving DecidableEq

/-! ## Parameter dictionaries (`ParameterExtractor`) -/

/-- The parameter dictionary built by `ParameterExtractor._create_parameter_dict`.
The nested `FILE` entry (keyed by the wafer badge) is flattened into
`fileCorner`/`filePath`. -/
structure Parameter where
  TITLE : String
  COM : String
  FLOW : String
  TYPE : String
  PRODUCT : String
  CODE : String
  LOT : String
  WAFER : String
  CUT : String
  REVISION : String
  AUTHOR : String
  MAIL : String
  SITE : String
  GROUP : String
  TEST_NUM : String
  CSV : String
  fileCorner : String
  filePath : String
deriving DecidableEq

/-- `ParameterExtractor._create_parameter_dict` (named without the leading
underscore, which Lean reserves). -/
def create_parameter_dict (product productcut flow mytype lot_pkg waf_badge
    corner stdname path : String) : Parameter :=
  { TITLE := ""
    COM := ""
    FLOW := strUpper flow
    TYPE := strUpper mytype
    PRODUCT := ""
    CODE := strUpper product
    LOT := strUpper lot_pkg
    WAFER := waf_badge
    CUT := strUpper productcut
    REVISION := "0.1"
    AUTHOR := "Matteo Terranova"
    MAIL := "matteo.terranova@st.com"
    SITE := "Catania"
    GROUP := "MDRF - EP - GPAM"
    TEST_NUM := ""
    CSV := stdname
    fileCorner := corner
    filePath := path }

/-- The regex `^[A-F0-9]{3}[A-Z]$` of
`ParameterExtractor.get_parameter_from_condition_path`: three uppercase-hex
characters followed by one uppercase letter. -/
def isProductCutCode (s : String) : Bool :=
  let hexUp : Char → Bool := fun c =>
    (decide ('A' ≤ c) && decide (c ≤ 'F')) || (decide ('0' ≤ c) && decide (c ≤ '9'))
  match s.data with
  | [a, b, c, d] =>
    (hexUp a && hexUp b && hexUp c) && (decide ('A' ≤ d) && decide (d ≤ 'Z'))
  | _ => false

/-- Inner loop of `get_parameter_from_condition_path`: scanning the components
after the matched product-cut component, the flow is the component immediately
before the first `"CONDITION"` component that is at least two positions past
the match. -/
def flowBeforeCondition : List String → Option String
  | x :: y :: rest =>
    if y = "CONDITION" then some x else flowBeforeCondition (y :: rest)
  | _ => none

/-- Outer loop of `get_parameter_from_condition_path`: find the first component
matching the product-cut pattern and derive (product, productcut, flow);
defaults are `("UNK", "UNKA", "UNKNOWN")`. -/
def findProductCutAndFlow : List String → String × String × String
  | [] => ("UNK", "UNKA", "UNKNOWN")
  | part :: rest =>
    if isProductCutCode part then
      (⟨part.data.dropLast⟩, part, (flowBeforeCondition rest).getD "UNKNOWN")
    else findProductCutAndFlow rest

/-- `ParameterExtractor.get_parameter_from_condition_path`. -/
def get_parameter_from_condition_path (path : String) : Parameter :=
  let path_parts := splitBS path
  let pcf := findProductCutAndFlow path_parts
  let filename := pbasename path
  create_parameter_dict pcf.1 pcf.2.1 pcf.2.2 "CONDITION" "CONDITION"
    "CONDITION" "CONDITION" filename path

/-! ## Composite catalog (`CompositeManager`) -/

/-- `\w` of Python's `re` (ASCII word character). -/
def isWordChar (c : Char) : Bool := c.isAlphanum || c = '_'

/-- `\s` of Python's `re` (ASCII whitespace). -/
def isSpaceChar (c : Char) : Bool :=
  c = ' ' || c = '\t' || c = '\n' || c = '\r' || c = '\x0b' || c = '\x0c'

/-- Try to match the regex `Composite\s*:=\s*(\w+)` at the head of `cs`,
returning the captured word and the remainder after the whole match. -/
def matchCompositeAt (cs : List Char) : Option (String × List Char) :=
  let lit := "Composite".data
  if cs.take lit.length = lit then
    let cs1 := (cs.drop lit.length).dropWhile isSpaceChar
    match cs1 with
    | ':' :: '=' :: cs2 =>
      let cs3 := cs2.dropWhile isSpaceChar
      let word := cs3.takeWhile isWordChar
      if word = [] then none
      else some (⟨word⟩, cs3.drop word.length)
    | _ => none
  else none

/-- Fuel-indexed worker for `re.findall`: scan left to right, emitting
non-overlapping matches.  The fuel (initially the text length) dominates the
number of scanning steps, since every step consumes at least one character. -/
def findallCompositesAux : Nat → List Char → List String
  | 0, _ => []
  | _, [] => []
  | fuel + 1, c :: cs =>
    match matchCompositeAt (c :: cs) with
    | some (w, rest) => w :: findallCompositesAux fuel rest
    | none => findallCompositesAux fuel cs

/-- `re.findall(r"Composite\s*:=\s*(\w+)", content)`. -/
def parseComposites (content : String) : List String :=
  findallCompositesAux content.data.length content.data

/-- `CompositeManager.get_composite_list`.  The `svn cat` subprocess is the
external collaborator: `some content` is its stdout on success, `none` is a
`CalledProcessError`.  On success the two administrative composites are
prepended to the parsed supplemental list; on failure the `except` branch
logs and returns the empty list. -/
def get_composite_list (svnResult : Option String) : List String :=
  match svnResult with
  | some content => ["YIELD", "TTIME"] ++ parseComposites content
  | none => []

/-- `CompositeManager.should_skip_composite`. -/
def should_skip_composite (parameter : Parameter) (process_type : ProcessType) : Bool :=
  let composite := parameter.COM
  let param_type := strUpper parameter.TYPE
  if composite ∈ (["INIT", "FLH_TOOLS"] : List String) then true
  else if process_type = ProcessType.CSV2REPORT then
    (strContains param_type "X30" && strContains composite "TTIME") ||
    (strContains param_type "X30" && strContains composite "YIELD")
  else if process_type = ProcessType.CONDITION2REPORT then
    decide (composite ∈ (["TTIME", "YIELD"] : List String))
  else false

/-! ## Report paths and titles (`FileProcessor.get_report_path`,
`ProcessingWorker.create_title`, `get_completion_marker_info`) -/

/-- `FileProcessor.get_report_path`. -/
def get_report_path (base_path : String) (parameter : Parameter)
    (process_type : ProcessType) : String :=
  if process_type = ProcessType.CSV2REPORT then
    let base_report_path := pjoin (pdirname base_path) "Report"
    if strContains parameter.COM "TTIME" || strContains parameter.COM "YIELD" then
      pjoin base_report_path (parameter.TITLE ++ ".html")
    else
      pjoin (pjoin base_report_path (strUpper parameter.TYPE))
        (parameter.TITLE ++ ".html")
  else if process_type = ProcessType.CONDITION2REPORT then
    pjoin (pjoin (pdirname base_path) "Report") (parameter.TITLE ++ ".html")
  else ""

/-- `ProcessingWorker.create_title`. -/
def create_title (process_type : ProcessType) (parameter : Parameter)
    (composite : String) : String :=
  if process_type = ProcessType.CONDITION2REPORT then
    replUnderscore (strUpper composite) ++ " " ++ strUpper parameter.FLOW
      ++ " condition"
  else
    replUnderscore (strUpper composite) ++ " " ++ strUpper parameter.FLOW
      ++ " " ++ strLower parameter.TYPE

/-- `ProcessingWorker.get_completion_marker_info`: marker file name and
content. -/
def get_completion_marker_info (process_type : ProcessType) : String × String :=
  if process_type = ProcessType.CONDITION2REPORT then
    ("CONDITION_REPORT_DONE.txt",
     "IF YOU READ THIS ALL CONDITION REPORTS HAVE BEEN GENERATED \nTHIS FOLDER WILL BE SKIPPED FOR CONDITION PROCESSING\nIN CASE DELETE THIS FILE IF YOU WANT TO REGENERATE CONDITION REPORTS AND WAIT")
  else
    ("REPORT DONE.txt",
     "IF YOU READ THIS ALL REPORT HAVE BEEN GENERATED \nTHIS FOLDER WILL BE SKIPPED\nIN CASE DELETE THIS FILE END REPORT YOU WANT TO REGENERATE AND WAIT")

/-! ## The polling pass (`DirectoryPoller`)

A `LeafDir` records the filesystem observations the poller makes about one
candidate leaf directory (an existing `x30`/`VOLUME` subfolder of a
wafer/badge directory), together with the answer the external SVN catalog
would give for it. -/

structure LeafDir where
  /-- The directory's path (the `subfolder_path` handed to `check_csv_folder`). -/
  path : String
  /-- `os.listdir(path)`. -/
  entries : List String
  /-- `os.path.isfile(os.path.join(path, "REPORT DONE.txt"))`
  (`FileProcessor.check_completion_marker`). -/
  hasMarker : Bool
  /-- `some l` iff `os.path.isdir(os.path.join(path, "csv"))`, with `l` the
  listing of that `csv` subdirectory. -/
  csvEntries : Option (List String)
  /-- `some l` iff `os.path.isdir(os.path.join(path, "Report"))`, with `l` the
  `.html` file names collected by the `os.walk` over the Report directory. -/
  reportHtml : Option (List String)
  /-- Result of `svn cat` on this directory's composites URL: stdout on
  success, `none` on `CalledProcessError`. -/
  svn : Option String
deriving DecidableEq

/-- The three work lists built by `poll_directory` plus its per-pass
deduplication set `seen_paths` (kept as a duplicate-free list). -/
structure PollState where
  stdf_list : List String
  csv_list : List String
  condition_list : List String
  seen_paths : List String
deriving DecidableEq

/-- `[f for f in os.listdir(path) if f.endswith((".std", ".stdf"))]`. -/
def stdFilesOf (d : LeafDir) : List String :=
  d.entries.filter (fun f => strEndsWith f ".std" || strEndsWith f ".stdf")

/-- The conversion-output test of `check_csv_folder`: a `csv` subdirectory
exists and holds strictly more than 8 `.csv` files. -/
def csvReady (d : LeafDir) : Bool :=
  match d.csvEntries with
  | some l => (l.filter (fun f => strEndsWith f ".csv")).length > 8
  | none => false

/-- `DirectoryPoller.check_csv_folder`: returns the ready-for-report flag and
the updated `(stdf_list, seen_paths)`. -/
def check_csv_folder (d : LeafDir) (stdf_list seen_paths : List String) :
    Bool × List String × List String :=
  if d.hasMarker then (false, stdf_list, seen_paths)
  else
    let std_files := stdFilesOf d
    if std_files.length = 1 then
      if csvReady d then (true, stdf_list, seen_paths)
      else
        let std_file_path := pjoin d.path (std_files.headD "")
        if std_file_path ∈ seen_paths then (false, stdf_list, seen_paths)
        else (false, stdf_list ++ [std_file_path], seen_paths ++ [std_file_path])
    else (false, stdf_list, seen_paths)

/-- `DirectoryPoller.check_report_folder`. -/
def check_report_folder (d : LeafDir) (csv_list : List String) : List String :=
  let std_files := stdFilesOf d
  if std_files.length = 1 then
    let std_file_path := pjoin d.path (std_files.headD "")
    match d.reportHtml with
    | none => csv_list ++ [std_file_path]
    | some html_files =>
      let composite_list := get_composite_list d.svn
      let missing_composites :=
        composite_list.filter (fun comp => ! html_files.any (fun h => strContains h comp))
      if missing_composites.isEmpty then csv_list
      else csv_list ++ [std_file_path]
  else csv_list

/-- One iteration of `DirectoryPoller._process_wafer_subfolders` on an existing
subfolder: `check_report_folder` runs only when `check_csv_folder` answered
`true`. -/
def processSubfolder (d : LeafDir) (s : PollState) : PollState :=
  let r := check_csv_folder d s.stdf_list s.seen_paths
  let s1 : PollState := { s with stdf_list := r.2.1, seen_paths := r.2.2 }
  if r.1 then { s1 with csv_list := check_report_folder d s1.csv_list } else s1

/-- One discovery pass (`DirectoryPoller.poll_directory`) restricted to the
leaf directories it reaches, in traversal order.  The work lists and the
deduplication set `seen_paths` start empty on every invocation. -/
def pollPass (dirs : List LeafDir) : PollState :=
  dirs.foldl (fun s d => processSubfolder d s)
    { stdf_list := [], csv_list := [], condition_list := [], seen_paths := [] }

/-! ## The report stage (`ReportWorker.process_file`)

The loop over the composite list (source lines 826-852).  External effects are
made explicit: `fs` is the set of existing files (`os.path.isfile`), `failing`
is the set of composites whose render raises, and a successful render creates
the HTML artifact at the computed report path. -/

structure ReportRun where
  /-- Existing file paths (the renderer adds to this on success; the marker
  write adds the marker file at the end). -/
  fs : List String
  /-- Report paths existence-checked by `os.path.isfile`, in loop order. -/
  checks : List String
  /-- Composites for which `_run_report_generation` was invoked. -/
  invocations : List String
  /-- Composites whose render raised; the exception is caught and logged. -/
  failures : List String
  /-- Whether `create_completion_marker` has run. -/
  markerWritten : Bool
deriving DecidableEq

/-- The per-iteration update of `parameter` in the composite loop:
`parameter["COM"] = composite; parameter["TITLE"] = self.create_title(...)`. -/
def paramFor (process_type : ProcessType) (parameter : Parameter)
    (composite : String) : Parameter :=
  let p1 := { parameter with COM := composite }
  { p1 with TITLE := create_title process_type p1 composite }

/-- One iteration of the composite loop of `ReportWorker.process_file`. -/
def stepComposite (process_type : ProcessType) (path : String)
    (failing : List String) (pr : Parameter × ReportRun) (composite : String) :
    Parameter × ReportRun :=
  let parameter := paramFor process_type pr.1 composite
  let r := pr.2
  if should_skip_composite parameter process_type then (parameter, r)
  else
    let report_path := get_report_path path parameter process_type
    let r1 := { r with checks := r.checks ++ [report_path] }
    if report_path ∈ r.fs then (parameter, r1)
    else if composite ∈ failing then
      (parameter, { r1 with invocations := r1.invocations ++ [composite],
                            failures := r1.failures ++ [composite] })
    else
      (parameter, { r1 with invocations := r1.invocations ++ [composite],
                            fs := r1.fs ++ [report_path] })

/-- The composite loop of `ReportWorker.process_file` followed by the
unconditional completion-marker write into `os.path.dirname(path)`. -/
def processComposites (process_type : ProcessType) (parameter : Parameter)
    (path : String) (composite_list : List String) (fs : List String)
    (failing : List String) : ReportRun :=
  let init : Parameter × ReportRun :=
    (parameter, { fs := fs, checks := [], invocations := [], failures := [],
                  markerWritten := false })
  let res := composite_list.foldl (stepComposite process_type path failing) init
  let marker := get_completion_marker_info process_type
  { res.2 with markerWritten := true,
               fs := res.2.fs ++ [pjoin (pdirname path) marker.1] }

/-! ## Derived notions used by the statements -/

/-- The raw-file path of a leaf directory, defined when the directory holds
exactly one raw (`.std`/`.stdf`) file — the only case in which the poller
enqueues anything for this directory. -/
def rawPath (d : LeafDir) : Option String :=
  if (stdFilesOf d).length = 1 then
    some (pjoin d.path ((stdFilesOf d).headD ""))
  else none

/-- The skip decision the composite loop makes for composite `c` (the
parameter dictionary as updated at that iteration). -/
def skipFor (process_type : ProcessType) (parameter : Parameter)
    (composite : String) : Bool :=
  should_skip_composite (paramFor process_type parameter composite) process_type

/-- The report path the composite loop computes for composite `c`. -/
def reportPathFor (process_type : ProcessType) (path : String)
    (parameter : Parameter) (composite : String) : String :=
  get_report_path path (paramFor process_type parameter composite) process_type

/-- Report path as the spec's path-template section words it, with the
administrative-composite test amended from name equality to substring
containment (which is what the source's `in` test performs):
`<leaf>/Report/<TITLE>.html` when the composite name contains `TTIME` or
`YIELD`, else `<leaf>/Report/<TYPE upper>/<TITLE>.html`, where `TITLE` is the
composite upper-cased with underscores replaced by spaces, then the flow
upper-cased, then the processing-type lower-cased, space-separated. -/
def reportPathSpec (leafDir composite flow ptype : String) : String :=
  let title := replUnderscore (strUpper composite) ++ " " ++ strUpper flow
    ++ " " ++ strLower ptype
  if strContains composite "TTIME" || strContains composite "YIELD" then
    pjoin (pjoin leafDir "Report") (title ++ ".html")
  else
    pjoin (pjoin (pjoin leafDir "Report") (strUpper ptype)) (title ++ ".html")

/-! ## Concrete inputs used by witnesses and counterexamples -/

/-- A leaf directory holding one raw file, no marker, no `csv` subdirectory,
no `Report` subdirectory. -/
def exConvDir : LeafDir :=
  { path := "R\\LOT_01\\x30", entries := ["a.std"], hasMarker := false,
    csvEntries := none, reportHtml := none, svn := none }

/-- The raw-file path of `exConvDir`. -/
def exConvPath : String := "R\\LOT_01\\x30\\a.std"

/-- `exConvDir` with the completion marker present. -/
def exMarkerDir : LeafDir := { exConvDir with hasMarker := true }

/-- `exConvDir` with exactly 8 converted `.csv` files (at the claimed
threshold, not above it). -/
def ex8Dir : LeafDir :=
  { exConvDir with csvEntries := some ["1.csv", "2.csv", "3.csv", "4.csv", "5.csv", "6.csv", "7.csv", "8.csv"] }

/-- `exConvDir` with 9 converted `.csv` files (strictly above the threshold). -/
def ex9Dir : LeafDir :=
  { exConvDir with csvEntries := some ["1.csv", "2.csv", "3.csv", "4.csv", "5.csv", "6.csv", "7.csv", "8.csv", "9.csv"] }

/-- A non-empty poll state, to exercise preservation. -/
def exState : PollState :=
  { stdf_list := ["q"], csv_list := ["w"], condition_list := ["e"], seen_paths := ["q"] }

/-- A parameter dictionary as extracted for a wafer work item. -/
def exParam : Parameter :=
  create_parameter_dict "05A" "05AB" "EWS1" "VOLUME" "LOT" "LOT_01" "TTTT"
    "a.std" "R\\LOT_01\\x30\\a.std"

/-- The work-item path matching `exParam`. -/
def exPath : String := "R\\LOT_01\\x30\\a.std"

/-- The catalog used in report-stage witnesses. -/
def exCatalog : List String := ["YIELD", "TTIME", "INIT"]

/-- The file set produced by a first, fully successful report-stage run on
`exParam` starting from an empty filesystem. -/
def exRun1Fs : List String :=
  (processComposites ProcessType.CSV2REPORT exParam exPath exCatalog [] []).fs

/-- `exParam` under the `x30` processing-type. -/
def exParamX30 : Parameter :=
  create_parameter_dict "05A" "05AB" "EWS1" "x30" "LOT" "LOT_01" "TTTT"
    "a.std" "R\\LOT_01\\x30\\a.std"

/-- An empty report-run accumulator over an empty filesystem. -/
def exRun0 : ReportRun :=
  { fs := [], checks := [], invocations := [], failures := [], markerWritten := false }

/-- A condition-artifact path none of whose components matches the product-cut
pattern. -/
def exCondPath : String := "srv\\data\\EWS1\\CONDITION\\anaflow.csv"

/-! ## Lemmas about the polling pass -/

/-- A leaf directory whose raw path is already in the per-pass ledger is left
untouched by a further visit in the same pass. -/
lemma processSubfolder_seen_fix (d : LeafDir) (f : String) (s : PollState)
    (h1 : d.hasMarker = false) (h2 : stdFilesOf d = [f]) (h3 : csvReady d = false)
    (hp : pjoin d.path f ∈ s.seen_paths) : processSubfolder d s = s := by
  simp [processSubfolder, check_csv_folder, h1, h2, h3, hp]

/-- Re-visiting such a directory any number of times in the same pass leaves
the pass state fixed. -/
lemma foldl_replicate_fix (d : LeafDir) (f : String)
    (h1 : d.hasMarker = false) (h2 : stdFilesOf d = [f]) (h3 : csvReady d = false) :
    ∀ (k : Nat) (s : PollState), pjoin d.path f ∈ s.seen_paths →
      (List.replicate k d).foldl (fun s d => processSubfolder d s) s = s
  | 0, _, _ => rfl
  | k + 1, s, hp => by
    rw [List.replicate_succ, List.foldl_cons,
      processSubfolder_seen_fix d f s h1 h2 h3 hp]
    exact foldl_replicate_fix d f h1 h2 h3 k s hp

/-- Provenance of `stdf_list` entries added by `check_csv_folder`. -/
lemma check_csv_folder_stdf_mem {d : LeafDir} {stdf seen : List String} {p : String}
    (h : p ∈ (check_csv_folder d stdf seen).2.1) :
    p ∈ stdf ∨ (rawPath d = some p ∧ d.hasMarker = false ∧ csvReady d = false) := by
  cases hm : d.hasMarker with
  | true => simp [check_csv_folder, hm] at h; exact Or.inl h
  | false =>
    by_cases hl : (stdFilesOf d).length = 1
    · cases hr : csvReady d with
      | true => simp [check_csv_folder, hm, hl, hr] at h; exact Or.inl h
      | false =>
        by_cases hs : pjoin d.path ((stdFilesOf d).head?.getD "") ∈ seen
        · simp [check_csv_folder, hm, hl, hr, hs] at h; exact Or.inl h
        · simp [check_csv_folder, hm, hl, hr, hs] at h
          rcases h with h | h
          · exact Or.inl h
          · exact Or.inr ⟨by simp [rawPath, hl, h], rfl, rfl⟩
    · simp [check_csv_folder, hm, hl] at h; exact Or.inl h

/-- The ready-for-report answer of `check_csv_folder` implies no marker and a
converted-output count above the threshold. -/
lemma check_csv_folder_ready {d : LeafDir} {stdf seen : List String}
    (h : (check_csv_folder d stdf seen).1 = true) :
    d.hasMarker = false ∧ csvReady d = true := by
  cases hm : d.hasMarker with
  | true => simp [check_csv_folder, hm] at h
  | false =>
    by_cases hl : (stdFilesOf d).length = 1
    · cases hr : csvReady d with
      | true => exact ⟨rfl, rfl⟩
      | false =>
        by_cases hs : pjoin d.path ((stdFilesOf d).head?.getD "") ∈ seen
        · simp [check_csv_folder, hm, hl, hr, hs] at h
        · simp [check_csv_folder, hm, hl, hr, hs] at h
    · simp [check_csv_folder, hm, hl] at h

/-- Provenance of `csv_list` entries added by `check_report_folder`. -/
lemma check_report_folder_mem {d : LeafDir} {csv : List String} {p : String}
    (h : p ∈ check_report_folder d csv) : p ∈ csv ∨ rawPath d = some p := by
  by_cases hl : (stdFilesOf d).length = 1
  · cases hrep : d.reportHtml with
    | none =>
      simp [check_report_folder, hl, hrep] at h
      rcases h with h | h
      · exact Or.inl h
      · exact Or.inr (by simp [rawPath, hl, h])
    | some htmls =>
      simp only [check_report_folder, hl, if_true, hrep] at h
      split at h
      · exact Or.inl h
      · simp at h
        rcases h with h | h
        · exact Or.inl h
        · exact Or.inr (by simp [rawPath, hl, h])
  · simp [check_report_folder, hl] at h; exact Or.inl h

/-- Provenance of `stdf_list` entries added by one subfolder visit. -/
lemma processSubfolder_stdf_mem {d : LeafDir} {s : PollState} {p : String}
    (h : p ∈ (processSubfolder d s).stdf_list) :
    p ∈ s.stdf_list ∨ (rawPath d = some p ∧ d.hasMarker = false ∧ csvReady d = false) := by
  by_cases hr : (check_csv_folder d s.stdf_list s.seen_paths).1 = true
  · simp only [processSubfolder, hr, if_true] at h
    exact check_csv_folder_stdf_mem h
  · simp only [processSubfolder, hr, if_false] at h
    exact check_csv_folder_stdf_mem h

/-- Provenance of `csv_list` entries added by one subfolder visit: the
directory was ready for report (conversion output above threshold). -/
lemma processSubfolder_csv_mem {d : LeafDir} {s : PollState} {p : String}
    (h : p ∈ (processSubfolder d s).csv_list) :
    p ∈ s.csv_list ∨ (rawPath d = some p ∧ csvReady d = true) := by
  by_cases hr : (check_csv_folder d s.stdf_list s.seen_paths).1 = true
  · simp only [processSubfolder, hr, if_true] at h
    rcases check_report_folder_mem h with h | h
    · exact Or.inl h
    · exact Or.inr ⟨h, (check_csv_folder_ready hr).2⟩
  · simp only [processSubfolder, hr, if_false] at h
    exact Or.inl h

/-- A subfolder visit never touches the condition work list. -/
lemma processSubfolder_condition (d : LeafDir) (s : PollState) :
    (processSubfolder d s).condition_list = s.condition_list := by
  by_cases hr : (check_csv_folder d s.stdf_list s.seen_paths).1 = true
  · simp [processSubfolder, hr]
  · simp [processSubfolder, hr]

/-- Fold version of `processSubfolder_stdf_mem`. -/
lemma foldl_stdf_mem :
    ∀ (l : List LeafDir) (s : PollState) (p : String),
      p ∈ (l.foldl (fun s d => processSubfolder d s) s).stdf_list →
      p ∈ s.stdf_list ∨
        ∃ d ∈ l, rawPath d = some p ∧ d.hasMarker = false ∧ csvReady d = false
  | [], _, _, h => Or.inl h
  | d :: l, s, p, h => by
    rcases foldl_stdf_mem l (processSubfolder d s) p h with h1 | ⟨d2, hd2, hp2⟩
    · rcases processSubfolder_stdf_mem h1 with h2 | h2
      · exact Or.inl h2
      · exact Or.inr ⟨d, List.mem_cons_self d l, h2⟩
    · exact Or.inr ⟨d2, List.mem_cons_of_mem d hd2, hp2⟩

/-- Fold version of `processSubfolder_csv_mem`. -/
lemma foldl_csv_mem :
    ∀ (l : List LeafDir) (s : PollState) (p : String),
      p ∈ (l.foldl (fun s d => processSubfolder d s) s).csv_list →
      p ∈ s.csv_list ∨ ∃ d ∈ l, rawPath d = some p ∧ csvReady d = true
  | [], _, _, h => Or.inl h
  | d :: l, s, p, h => by
    rcases foldl_csv_mem l (processSubfolder d s) p h with h1 | ⟨d2, hd2, hp2⟩
    · rcases processSubfolder_csv_mem h1 with h2 | h2
      · exact Or.inl h2
      · exact Or.inr ⟨d, List.mem_cons_self d l, h2⟩
    · exact Or.inr ⟨d2, List.mem_cons_of_mem d hd2, hp2⟩

/-- Fold version of `processSubfolder_condition`. -/
lemma foldl_condition :
    ∀ (l : List LeafDir) (s : PollState),
      (l.foldl (fun s d => processSubfolder d s) s).condition_list = s.condition_list
  | [], _ => rfl
  | d :: l, s => by
    rw [List.foldl_cons, foldl_condition l (processSubfolder d s),
      processSubfolder_condition]

/-! ## Claim theorems: discovery pass -/

/-- C1: For every leaf directory in which the completion marker file
`REPORT DONE.txt` is present, a discovery pass enqueues that directory's raw
file into none of the three work lists: `check_csv_folder` returns `false`
immediately, so neither `stdf_list` nor `csv_list` (nor `condition_list`)
receives the path — the whole pass state is unchanged by the visit. -/
theorem marker_blocks_enqueue (d : LeafDir) (s : PollState)
    (h : d.hasMarker = true) : processSubfolder d s = s := by
  simp [processSubfolder, check_csv_folder, h]

/-- Witness for `marker_blocks_enqueue` at a concrete marked directory. -/
theorem marker_blocks_enqueue_witness :
    exMarkerDir.hasMarker = true ∧ processSubfolder exMarkerDir exState = exState :=
  ⟨rfl, marker_blocks_enqueue exMarkerDir exState rfl⟩

/-- C2 counterexample: the deduplication ledger `seen_paths` is rebuilt empty
on every `poll_directory` invocation, so two consecutive passes over the same
unconverted leaf directory enqueue its raw path once **each**: the total
number of appends across the two passes is 2, not 1 as the claim states. -/
theorem dedup_not_cross_pass_cex :
    (pollPass [exConvDir]).stdf_list = [exConvPath] ∧
    ((pollPass [exConvDir]).stdf_list ++ (pollPass [exConvDir]).stdf_list).count
      exConvPath ≠ 1 := by decide

/-- C2 amended: within a single discovery pass, the raw path of a leaf
directory with exactly one raw file and conversion output below the threshold
is appended to the conversion work list exactly once, even when the pass
visits the directory any number of times (overlapping subtrees); across
passes the ledger is rebuilt and the path is re-enqueued. -/
theorem dedup_once_per_pass (d : LeafDir) (f : String) (k : Nat)
    (h1 : d.hasMarker = false) (h2 : stdFilesOf d = [f]) (h3 : csvReady d = false) :
    (pollPass (List.replicate (k + 1) d)).stdf_list = [pjoin d.path f] ∧
    (pollPass (List.replicate (k + 1) d)).stdf_list.count (pjoin d.path f) = 1 := by
  have hstep : processSubfolder d
      { stdf_list := [], csv_list := [], condition_list := [], seen_paths := [] } =
      { stdf_list := [pjoin d.path f], csv_list := [],
        condition_list := [], seen_paths := [pjoin d.path f] } := by
    simp [processSubfolder, check_csv_folder, h1, h2, h3]
  have hpass : pollPass (List.replicate (k + 1) d) =
      { stdf_list := [pjoin d.path f], csv_list := [],
        condition_list := [], seen_paths := [pjoin d.path f] } := by
    unfold pollPass
    rw [List.replicate_succ, List.foldl_cons, hstep]
    exact foldl_replicate_fix d f h1 h2 h3 k _ (by simp)
  rw [hpass]
  exact ⟨rfl, by simp⟩

/-- Witness for `dedup_once_per_pass`: three visits to the same directory in
one pass still enqueue its raw path exactly once. -/
theorem dedup_once_per_pass_witness :
    (pollPass (List.replicate 3 exConvDir)).stdf_list = [pjoin exConvDir.path "a.std"] ∧
    (pollPass (List.replicate 3 exConvDir)).stdf_list.count
      (pjoin exConvDir.path "a.std") = 1 :=
  dedup_once_per_pass exConvDir "a.std" 2 rfl (by decide) rfl

/-- C3 counterexample: at exactly 8 converted `.csv` files — "at or above the
threshold of 8" per the claim — the source's test `len(csv_files) > 8` is
false, so the discovery pass appends the raw file to the **conversion** list
and not to the report list, contradicting the claim. -/
theorem threshold_boundary_cex :
    (ex8Dir.csvEntries.getD []).length = 8 ∧ ex8Dir.hasMarker = false ∧
    ex8Dir.reportHtml = none ∧
    (processSubfolder ex8Dir (pollPass [])).csv_list = [] ∧
    (processSubfolder ex8Dir (pollPass [])).stdf_list = [exConvPath] := by decide

/-- C3 amended: for every leaf directory with no completion marker, exactly
one raw file, a `csv` subdirectory holding **strictly more than 8** (at least
9) `.csv` files, and no `Report` subdirectory, the discovery pass appends the
raw file's path to the report-generation work list and not to the conversion
list. -/
theorem above_threshold_enqueues_report (d : LeafDir) (f : String)
    (l : List String) (s : PollState)
    (h1 : d.hasMarker = false) (h2 : stdFilesOf d = [f])
    (h3 : d.csvEntries = some l)
    (h4 : 8 < (l.filter (fun f => strEndsWith f ".csv")).length)
    (h5 : d.reportHtml = none) :
    (processSubfolder d s).csv_list = s.csv_list ++ [pjoin d.path f] ∧
    (processSubfolder d s).stdf_list = s.stdf_list := by
  have hr : csvReady d = true := by
    simp [csvReady, h3]
    exact h4
  constructor
  · simp [processSubfolder, check_csv_folder, check_report_folder, h1, h2, hr, h5]
  · simp [processSubfolder, check_csv_folder, h1, h2, hr]

/-- Witness for `above_threshold_enqueues_report` at a directory with 9
converted files. -/
theorem above_threshold_enqueues_report_witness :
    (processSubfolder ex9Dir exState).csv_list = exState.csv_list ++ [pjoin ex9Dir.path "a.std"] ∧
    (processSubfolder ex9Dir exState).stdf_list = exState.stdf_list :=
  above_threshold_enqueues_report ex9Dir "a.std"
    ["1.csv", "2.csv", "3.csv", "4.csv", "5.csv", "6.csv", "7.csv", "8.csv", "9.csv"]
    exState rfl (by decide) rfl (by decide) rfl

/-- C4: within a single discovery pass, a raw path enqueued for conversion is
never also enqueued for report generation (and the condition list stays
empty, so each path reaches at most one of the three work lists), provided
distinct leaf directories visited by the pass carry distinct raw paths.
`check_report_folder` is only reached when `check_csv_folder` returns `true`,
and that branch enqueues nothing for conversion. -/
theorem pass_single_list_enqueue (dirs : List LeafDir)
    (hinj : ∀ d1 ∈ dirs, ∀ d2 ∈ dirs,
      rawPath d1 = rawPath d2 → d1 = d2 ∨ rawPath d1 = none)
    (p : String) (hp : p ∈ (pollPass dirs).stdf_list) :
    p ∉ (pollPass dirs).csv_list ∧ (pollPass dirs).condition_list = [] := by
  constructor
  · intro hc
    rcases foldl_stdf_mem dirs _ p hp with h | ⟨d1, hd1, hp1, _, hr1⟩
    · simp at h
    · rcases foldl_csv_mem dirs _ p hc with h | ⟨d2, hd2, hp2, hr2⟩
      · simp at h
      · rcases hinj d1 hd1 d2 hd2 (hp1.trans hp2.symm) with he | he
        · subst he
          rw [hr1] at hr2
          exact Bool.false_ne_true hr2
        · rw [hp1] at he
          exact Option.noConfusion he
  · exact foldl_condition dirs _

/-- Witness for `pass_single_list_enqueue` on a one-directory pass that
enqueues for conversion. -/
theorem pass_single_list_enqueue_witness :
    exConvPath ∉ (pollPass [exConvDir]).csv_list ∧
    (pollPass [exConvDir]).condition_list = [] :=
  pass_single_list_enqueue [exConvDir] (by decide) exConvPath (by decide)

/-! ## Lemmas about the report-stage composite loop -/

/-- The parameter threaded through the loop after processing composite `c`. -/
lemma stepComposite_fst (pt : ProcessType) (path : String) (failing : List String)
    (pr : Parameter × ReportRun) (c : String) :
    (stepComposite pt path failing pr c).1 = paramFor pt pr.1 c := by
  simp only [stepComposite]
  split_ifs <;> rfl

/-- One loop iteration performs exactly one report-path existence check when
the composite is not skipped, and none when it is. -/
lemma stepComposite_checks (pt : ProcessType) (path : String) (failing : List String)
    (pr : Parameter × ReportRun) (c : String) :
    (stepComposite pt path failing pr c).2.checks =
      pr.2.checks ++ (if should_skip_composite (paramFor pt pr.1 c) pt then []
        else [get_report_path path (paramFor pt pr.1 c) pt]) := by
  by_cases hs : should_skip_composite (paramFor pt pr.1 c) pt
  · simp [stepComposite, hs]
  · simp only [stepComposite, hs, if_false, Bool.false_eq_true]
    split_ifs <;> simp

/-- A skipped composite leaves the run state untouched: no existence check, no
renderer invocation. -/
lemma stepComposite_skip (pt : ProcessType) (path : String) (failing : List String)
    (pr : Parameter × ReportRun) (c : String)
    (hs : should_skip_composite (paramFor pt pr.1 c) pt = true) :
    (stepComposite pt path failing pr c).2 = pr.2 := by
  simp [stepComposite, hs]

/-- A composite whose report path already exists only records the existence
check: no renderer invocation, no filesystem change. -/
lemma stepComposite_exists (pt : ProcessType) (path : String) (failing : List String)
    (pr : Parameter × ReportRun) (c : String)
    (hs : should_skip_composite (paramFor pt pr.1 c) pt = false)
    (hmem : get_report_path path (paramFor pt pr.1 c) pt ∈ pr.2.fs) :
    (stepComposite pt path failing pr c).2 =
      { pr.2 with checks :=
          pr.2.checks ++ [get_report_path path (paramFor pt pr.1 c) pt] } := by
  simp [stepComposite, hs, hmem]

/-- The sequence of existence checks performed by the composite loop does not
depend on which renders fail or on the accumulated run state beyond the
already-recorded checks. -/
lemma foldl_checks_congr (pt : ProcessType) (path : String) :
    ∀ (cl : List String) (pr1 pr2 : Parameter × ReportRun) (f1 f2 : List String),
      pr1.1 = pr2.1 → pr1.2.checks = pr2.2.checks →
      ((cl.foldl (stepComposite pt path f1) pr1).2).checks =
        ((cl.foldl (stepComposite pt path f2) pr2).2).checks
  | [], _, _, _, _, _, h2 => h2
  | c :: cl, pr1, pr2, f1, f2, h1, h2 => by
    rw [List.foldl_cons, List.foldl_cons]
    apply foldl_checks_congr pt path cl _ _ f1 f2
    · rw [stepComposite_fst, stepComposite_fst, h1]
    · rw [stepComposite_checks, stepComposite_checks, h1, h2]

/-- `create_title` reads only the `FLOW` and `TYPE` entries. -/
lemma create_title_congr (pt : ProcessType) (p q : Parameter) (c : String)
    (hF : p.FLOW = q.FLOW) (hT : p.TYPE = q.TYPE) :
    create_title pt p c = create_title pt q c := by
  simp [create_title, hF, hT]

/-- `should_skip_composite` reads only the `COM` and `TYPE` entries. -/
lemma should_skip_congr (pt : ProcessType) (p q : Parameter)
    (hC : p.COM = q.COM) (hT : p.TYPE = q.TYPE) :
    should_skip_composite p pt = should_skip_composite q pt := by
  simp [should_skip_composite, hC, hT]

/-- `get_report_path` reads only the `COM`, `TYPE` and `TITLE` entries. -/
lemma get_report_path_congr (bp : String) (pt : ProcessType) (p q : Parameter)
    (hC : p.COM = q.COM) (hT : p.TYPE = q.TYPE) (hTi : p.TITLE = q.TITLE) :
    get_report_path bp p pt = get_report_path bp q pt := by
  simp [get_report_path, hC, hT, hTi]

/-- The skip decision for a composite depends only on the `TYPE` entry of the
parameter dictionary carried into the iteration. -/
lemma skipFor_congr (pt : ProcessType) (p q : Parameter) (c : String)
    (hT : p.TYPE = q.TYPE) : skipFor pt p c = skipFor pt q c :=
  should_skip_congr pt _ _ rfl hT

/-- The computed report path depends only on the `FLOW` and `TYPE` entries of
the parameter dictionary carried into the iteration. -/
lemma reportPathFor_congr (pt : ProcessType) (path : String) (p q : Parameter)
    (c : String) (hF : p.FLOW = q.FLOW) (hT : p.TYPE = q.TYPE) :
    reportPathFor pt path p c = reportPathFor pt path q c :=
  get_report_path_congr path pt _ _ rfl hT
    (create_title_congr pt _ _ c hF hT)

/-- Main induction for idempotence: if every non-skipped composite's report
path already exists, the loop invokes the renderer for none of them, and the
initial files survive. -/
lemma foldl_no_invoke (pt : ProcessType) (path : String) (failing : List String)
    (param0 : Parameter) (fs0 : List String) :
    ∀ (cl : List String) (pr : Parameter × ReportRun),
      pr.1.FLOW = param0.FLOW → pr.1.TYPE = param0.TYPE →
      (∀ q ∈ fs0, q ∈ pr.2.fs) →
      (∀ c ∈ cl, skipFor pt param0 c = false → reportPathFor pt path param0 c ∈ fs0) →
      ((cl.foldl (stepComposite pt path failing) pr).2).invocations = pr.2.invocations ∧
        ∀ q ∈ fs0, q ∈ ((cl.foldl (stepComposite pt path failing) pr).2).fs
  | [], _, _, _, hfs, _ => ⟨rfl, hfs⟩
  | c :: cl, pr, hF, hT, hfs, hcl => by
    rw [List.foldl_cons]
    have hFLOW : (stepComposite pt path failing pr c).1.FLOW = param0.FLOW := by
      rw [stepComposite_fst, paramFor]
      exact hF
    have hTYPE : (stepComposite pt path failing pr c).1.TYPE = param0.TYPE := by
      rw [stepComposite_fst, paramFor]
      exact hT
    cases hsk : skipFor pt param0 c with
    | true =>
      have hs2 : should_skip_composite (paramFor pt pr.1 c) pt = true :=
        (skipFor_congr pt pr.1 param0 c hT).trans hsk
      have h2 : (stepComposite pt path failing pr c).2 = pr.2 :=
        stepComposite_skip pt path failing pr c hs2
      have IH := foldl_no_invoke pt path failing param0 fs0 cl
        (stepComposite pt path failing pr c) hFLOW hTYPE
        (by rw [h2]; exact hfs)
        (fun e he => hcl e (List.mem_cons_of_mem c he))
      exact ⟨IH.1.trans (by rw [h2]), IH.2⟩
    | false =>
      have hs2 : should_skip_composite (paramFor pt pr.1 c) pt = false :=
        (skipFor_congr pt pr.1 param0 c hT).trans hsk
      have hrp : get_report_path path (paramFor pt pr.1 c) pt ∈ pr.2.fs := by
        have h0 : reportPathFor pt path param0 c ∈ fs0 :=
          hcl c (List.mem_cons_self c cl) hsk
        have he : reportPathFor pt path pr.1 c = reportPathFor pt path param0 c :=
          reportPathFor_congr pt path pr.1 param0 c hF hT
        have := hfs _ h0
        rw [← he] at this
        exact this
      have h2 := stepComposite_exists pt path failing pr c hs2 hrp
      have IH := foldl_no_invoke pt path failing param0 fs0 cl
        (stepComposite pt path failing pr c) hFLOW hTYPE
        (by rw [h2]; exact hfs)
        (fun e he => hcl e (List.mem_cons_of_mem c he))
      exact ⟨IH.1.trans (by rw [h2]), IH.2⟩

/-- Helper for `findProductCutAndFlow`: when no component matches the
product-cut pattern, the defaults survive. -/
lemma findProductCutAndFlow_default :
    ∀ parts : List String, (∀ part ∈ parts, isProductCutCode part = false) →
      findProductCutAndFlow parts = ("UNK", "UNKA", "UNKNOWN")
  | [], _ => rfl
  | part :: rest, h => by
    simp only [findProductCutAndFlow, h part (List.mem_cons_self part rest),
      Bool.false_eq_true, if_false]
    exact findProductCutAndFlow_default rest fun q hq => h q (List.mem_cons_of_mem part hq)

/-! ## Claim theorems: report stage, catalog, parameters -/

/-- C5: in `ReportWorker.process_file`, a render failure for one composite is
caught inside the loop: the completion marker is still written after the
loop, and the sequence of per-composite report-path checks (the evaluation of
the remaining composites) is exactly the one of a failure-free run. -/
theorem render_failure_isolated (pt : ProcessType) (parameter : Parameter)
    (path : String) (composite_list fs failing : List String) :
    (processComposites pt parameter path composite_list fs failing).markerWritten = true ∧
    (processComposites pt parameter path composite_list fs failing).checks =
      (processComposites pt parameter path composite_list fs []).checks := by
  refine ⟨rfl, ?_⟩
  simp only [processComposites]
  exact foldl_checks_congr pt path composite_list _ _ failing [] rfl rfl

/-- C6: if every non-skipped composite's computed report path already exists,
the report stage invokes the external renderer zero times and still writes
the completion marker. -/
theorem report_stage_idempotent (pt : ProcessType) (parameter : Parameter)
    (path : String) (composite_list fs failing : List String)
    (h : ∀ c ∈ composite_list, skipFor pt parameter c = false →
      reportPathFor pt path parameter c ∈ fs) :
    (processComposites pt parameter path composite_list fs failing).invocations = [] ∧
    (processComposites pt parameter path composite_list fs failing).markerWritten = true := by
  refine ⟨?_, rfl⟩
  have h1 := (foldl_no_invoke pt path failing parameter fs composite_list
    (parameter, { fs := fs, checks := [], invocations := [], failures := [],
                  markerWritten := false })
    rfl rfl (fun q hq => hq) h).1
  simpa [processComposites] using h1

/-- Witness for `report_stage_idempotent`: a second consecutive run over the
filesystem produced by a fully successful first run performs no renderer
invocations. -/
theorem report_stage_idempotent_witness :
    (processComposites ProcessType.CSV2REPORT exParam exPath exCatalog
      exRun1Fs []).invocations = [] ∧
    (processComposites ProcessType.CSV2REPORT exParam exPath exCatalog
      exRun1Fs []).markerWritten = true :=
  report_stage_idempotent ProcessType.CSV2REPORT exParam exPath exCatalog
    exRun1Fs [] (by decide)

/-- C7 counterexample: when the SVN query fails (`CalledProcessError`), the
`except` branch of `get_composite_list` returns the **empty** list — not the
two administrative composites the claim promises. -/
theorem catalog_failure_empty_cex :
    get_composite_list none = [] ∧
    "YIELD" ∉ get_composite_list none ∧
    get_composite_list none ≠ ["YIELD", "TTIME"] := by decide

/-- C7 amended: on success the catalog is `YIELD`, `TTIME` prepended to
whatever the external source supplies; on failure the error is logged and the
result is the empty list (no exception propagates — the model is total). -/
theorem catalog_composition :
    (∀ content : String,
      get_composite_list (some content) = ["YIELD", "TTIME"] ++ parseComposites content) ∧
    get_composite_list none = [] ∧
    get_composite_list (some "Composite := ABC\nComposite:=DEF")
      = ["YIELD", "TTIME", "ABC", "DEF"] :=
  ⟨fun _ => rfl, rfl, by decide⟩

/-- C8: under a processing-type containing `X30`, composites containing
`TTIME` or `YIELD` — and the composites `INIT`/`FLH_TOOLS` under any
processing-type — are skipped by the `CSV2REPORT` loop before any report-path
existence check or renderer invocation: the run state is unchanged whatever
the existing report state `r`. -/
theorem skip_rules_pre_check (parameter : Parameter) (path : String)
    (failing : List String) (r : ReportRun) (c : String)
    (h : (strContains (strUpper parameter.TYPE) "X30" = true ∧
          (strContains c "TTIME" = true ∨ strContains c "YIELD" = true)) ∨
         c = "INIT" ∨ c = "FLH_TOOLS") :
    should_skip_composite (paramFor ProcessType.CSV2REPORT parameter c)
      ProcessType.CSV2REPORT = true ∧
    (stepComposite ProcessType.CSV2REPORT path failing (parameter, r) c).2 = r := by
  have hskip : should_skip_composite (paramFor ProcessType.CSV2REPORT parameter c)
      ProcessType.CSV2REPORT = true := by
    rcases h with ⟨hx, hc⟩ | h | h
    · by_cases hmem : c ∈ (["INIT", "FLH_TOOLS"] : List String)
      · simp [should_skip_composite, paramFor, hmem]
      · rcases hc with hc | hc
        · simp [should_skip_composite, paramFor, hmem, hx, hc]
        · simp [should_skip_composite, paramFor, hmem, hx, hc]
    · subst h
      simp [should_skip_composite, paramFor]
    · subst h
      simp [should_skip_composite, paramFor]
  exact ⟨hskip, stepComposite_skip _ _ _ _ _ hskip⟩

/-- Witness for `skip_rules_pre_check`: `TTIME` under processing-type `x30`. -/
theorem skip_rules_pre_check_witness :
    should_skip_composite (paramFor ProcessType.CSV2REPORT exParamX30 "TTIME")
      ProcessType.CSV2REPORT = true ∧
    (stepComposite ProcessType.CSV2REPORT exPath [] (exParamX30, exRun0) "TTIME").2 = exRun0 :=
  skip_rules_pre_check exParamX30 exPath [] exRun0 "TTIME"
    (Or.inl ⟨by decide, Or.inl (by decide)⟩)

/-- C9 counterexample: the source routes on **substring containment**
(`"TTIME" in COM or "YIELD" in COM`), not on name equality: the composite
`YIELD_ALL` is neither `TTIME` nor `YIELD` yet its report path is the
administrative layout `<leaf>\Report\<TITLE>.html`, not the per-type layout
`<leaf>\Report\VOLUME\<TITLE>.html` the claim requires for it. -/
theorem report_path_substring_cex :
    get_report_path exPath (paramFor ProcessType.CSV2REPORT exParam "YIELD_ALL")
      ProcessType.CSV2REPORT
      = "R\\LOT_01\\x30\\Report\\YIELD ALL EWS1 volume.html" ∧
    "YIELD_ALL" ≠ "TTIME" ∧ "YIELD_ALL" ≠ "YIELD" ∧
    "R\\LOT_01\\x30\\Report\\YIELD ALL EWS1 volume.html" ≠
      "R\\LOT_01\\x30\\Report\\VOLUME\\YIELD ALL EWS1 volume.html" := by decide

/-- C9 amended: the report path is the administrative layout exactly when the
composite name **contains** `TTIME` or `YIELD` as a substring, and the
per-type layout otherwise; `TITLE` is the composite upper-cased with
underscores replaced by spaces, then the flow upper-cased, then the
processing-type lower-cased, space-separated (see `reportPathSpec`). -/
theorem report_path_template (parameter : Parameter) (path c : String) :
    get_report_path path (paramFor ProcessType.CSV2REPORT parameter c)
        ProcessType.CSV2REPORT
      = reportPathSpec (pdirname path) c parameter.FLOW parameter.TYPE ∧
    (paramFor ProcessType.CSV2REPORT parameter c).TITLE
      = replUnderscore (strUpper c) ++ " " ++ strUpper parameter.FLOW ++ " "
        ++ strLower parameter.TYPE := by
  constructor
  · simp [get_report_path, reportPathSpec, paramFor, create_title]
  · simp [paramFor, create_title]

/-- C10: `get_parameter_from_condition_path` is total (never raises), always
sets `TYPE`, `LOT` and `WAFER` to `CONDITION`, and when no backslash-separated
component matches the product-cut pattern, `CODE`, `CUT` and `FLOW` default to
`UNK`, `UNKA` and `UNKNOWN`. -/
theorem condition_param_defaults (path : String) :
    (get_parameter_from_condition_path path).TYPE = "CONDITION" ∧
    (get_parameter_from_condition_path path).LOT = "CONDITION" ∧
    (get_parameter_from_condition_path path).WAFER = "CONDITION" ∧
    ((∀ part ∈ splitBS path, isProductCutCode part = false) →
      (get_parameter_from_condition_path path).CODE = "UNK" ∧
      (get_parameter_from_condition_path path).CUT = "UNKA" ∧
      (get_parameter_from_condition_path path).FLOW = "UNKNOWN") := by
  refine ⟨?_, ?_, rfl, ?_⟩
  · have h : strUpper "CONDITION" = "CONDITION" := by decide
    exact h
  · have h : strUpper "CONDITION" = "CONDITION" := by decide
    exact h
  · intro h
    have hp := findProductCutAndFlow_default (splitBS path) h
    refine ⟨?_, ?_, ?_⟩
    · show strUpper (findProductCutAndFlow (splitBS path)).1 = "UNK"
      rw [hp]
      decide
    · show strUpper (findProductCutAndFlow (splitBS path)).2.1 = "UNKA"
      rw [hp]
      decide
    · show strUpper (findProductCutAndFlow (splitBS path)).2.2 = "UNKNOWN"
      rw [hp]
      decide

/-- Witness for `condition_param_defaults` on a match-free condition path. -/
theorem condition_param_defaults_witness :
    (get_parameter_from_condition_path exCondPath).TYPE = "CONDITION" ∧
    (get_parameter_from_condition_path exCondPath).CODE = "UNK" ∧
    (get_parameter_from_condition_path exCondPath).CUT = "UNKA" ∧
    (get_parameter_from_condition_path exCondPath).FLOW = "UNKNOWN" :=
  ⟨(condition_param_defaults exCondPath).1,
   ((condition_param_defaults exCondPath).2.2.2 (by decide)).1,
   ((condition_param_defaults exCondPath).2.2.2 (by decide)).2.1,
   ((condition_param_defaults exCondPath).2.2.2 (by decide)).2.2⟩

end Spec2Proof
